import Mathlib

/-!
Verification of the A/B experiment-bucketing hooks of the website repository
(`src/app/new-homepage/page.tsx`): `abExperiments`, `useAnonId` and
`useAbTest`.  The hooks are shallowly embedded as pure Lean functions over an
explicit client-storage state.
-/

namespace AbTest

/-- Client local storage, as seen through the deserialising reader used by the
source (react-use's `useLocalStorage`): a partial map from keys to the
deserialised string values. -/
def Storage := String → Option String

/-- The storage key used by `useAnonId` in the source. -/
def anonIdKey : String := "inngest-anon-id"

/-- The experiment names: the keys of the `abExperiments` record in the
source. -/
inductive ExperimentName
  | header
  | footer
deriving DecidableEq, Repr

/-- The string form of an experiment name, as it appears when the name is
interpolated into the hash input in the source. -/
def ExperimentName.str : ExperimentName → String
  | .header => "header"
  | .footer => "footer"

/-- `abExperiments` from the source: experiment names mapped to their
variant lists. -/
def abExperiments : ExperimentName → List String
  | .header => ["kill-queues-headline", "event-driven-headerline"]
  | .footer => ["removed", "highlighted"]

/-- A deterministic hash of a string (DJB2-style over the characters,
reduced mod 2^32). -/
def detHash (s : String) : Nat :=
  s.data.foldl (fun h c => (h * 33 + c.toNat) % 2 ^ 32) 5381

/-- Modelled from the spec: the third-party npm utility `deterministic-split`
(not part of this repository's sources), described as a deterministic-hash
splitting utility that hashes the input string to "select one of a fixed
enumerated set of variant labels".  It deterministically hashes the input and
picks the variant at the hash index modulo the list length. -/
def deterministicSplit (s : String) (variants : List String) : String :=
  variants.getD (detHash s % variants.length) ""

/-- Modelled third-party dependency: react-use's `useLocalStorage` at the
exact call pattern of the source (`useLocalStorage<string>("inngest-anon-id")`:
no initial value supplied, returned setter and remover unused).  It reads the
key from storage and performs no write, returning the value together with the
resulting (unchanged) storage. -/
def useLocalStorage (key : String) (s : Storage) : Option String × Storage :=
  (s key, s)

/-- `useAnonId` from the source: reads the anonymous id from local storage
under the key `"inngest-anon-id"` and returns it. -/
def useAnonId (s : Storage) : Option String × Storage :=
  useLocalStorage anonIdKey s

/-- JavaScript template-literal interpolation of a possibly-undefined string:
`undefined` interpolates to the literal text "undefined". -/
def jsInterp : Option String → String
  | none => "undefined"
  | some v => v

/-- The hash input built by `useAbTest` in the source: the template literal
interpolating the anonymous id and the experiment name around an
underscore. -/
def splitInput (anonId : Option String) (e : ExperimentName) : String :=
  jsInterp anonId ++ "_" ++ e.str

/-- The analytics event value sent through `window.Inngest.event` in the
source's effect. -/
structure InngestEvent where
  name : String
  anonymous_id : Option String
  experiment : ExperimentName
  variant : String
deriving DecidableEq, Repr

/-- The result of one invocation of `useAbTest`: the variant returned to the
caller, the analytics event the mount effect emits, and the storage state
after the hook ran. -/
structure AbTestResult where
  variant : String
  event : InngestEvent
  storage : Storage

/-- `useAbTest` from the source: reads the anonymous id via `useAnonId`,
resolves the variant with `deterministicSplit` over the interpolated string
and the experiment's variant list, and prepares the
`"app/experiment.viewed"` analytics event whose data carries the anonymous
id, the experiment name and the resolved variant. -/
def useAbTest (e : ExperimentName) (s : Storage) : AbTestResult :=
  let r := useAnonId s
  let variant := deterministicSplit (splitInput r.1 e) (abExperiments e)
  { variant := variant
    event :=
      { name := "app/experiment.viewed"
        anonymous_id := r.1
        experiment := e
        variant := variant }
    storage := r.2 }

/-- The dependency tuple of the source's `useEffect`:
`[variant, anonId, experimentName]`. -/
structure EffectDeps where
  variant : String
  anonId : Option String
  experimentName : ExperimentName
deriving DecidableEq, Repr

/-- React effect semantics, continuing after a render whose dependency tuple
was `prev`: the effect body runs again exactly at the renders whose
dependency tuple differs from the previous render's. -/
def effectRunsFrom (prev : EffectDeps) : List EffectDeps → List EffectDeps
  | [] => []
  | d :: rest =>
      if d = prev then effectRunsFrom prev rest
      else d :: effectRunsFrom d rest

/-- React effect semantics for one mount, given the dependency tuple of each
successive render: the effect body runs after the first render and after
every render whose dependency tuple differs from the previous render's.
Returns the dependency tuples at which the effect body ran. -/
def effectRuns : List EffectDeps → List EffectDeps
  | [] => []
  | d :: rest => d :: effectRunsFrom d rest

/-- The dependency tuple `useAbTest` registers for its effect on a render
under storage state `s`. -/
def abTestDeps (e : ExperimentName) (s : Storage) : EffectDeps :=
  { variant := (useAbTest e s).variant
    anonId := (useAnonId s).1
    experimentName := e }

/-- The analytics event the effect body emits for a dependency tuple. -/
def depsEvent (d : EffectDeps) : InngestEvent :=
  { name := "app/experiment.viewed"
    anonymous_id := d.anonId
    experiment := d.experimentName
    variant := d.variant }

/-- The analytics events emitted across one mount of a component calling
`useAbTest e`, rendered `n` times under storage state `s`.  Within a mount
the storage-backed state and the experiment name are fixed, so every render
registers the same dependency tuple. -/
def mountEvents (e : ExperimentName) (s : Storage) (n : Nat) : List InngestEvent :=
  (effectRuns (List.replicate n (abTestDeps e s))).map depsEvent

/-- An empty client storage: no key holds a value. -/
def emptyStorage : Storage := fun _ => none

/-- A storage holding the anonymous id "alice" (and nothing else). -/
def storageA : Storage := fun k => if k = anonIdKey then some "alice" else none

/-- A storage holding the anonymous id "alice" plus unrelated state under
every other key. -/
def storageB : Storage := fun k => if k = anonIdKey then some "alice" else some "junk"

/-- A storage with no anonymous id but unrelated state under every other
key. -/
def storageC : Storage := fun k => if k = anonIdKey then none else some "zzz"

/-! ## Helper lemmas -/

/-- On a nonempty variant list, `deterministicSplit` selects an element of
the list. -/
theorem deterministicSplit_mem (s : String) (l : List String) (h : l ≠ []) :
    deterministicSplit s l ∈ l := by
  have hlt : detHash s % l.length < l.length :=
    Nat.mod_lt _ (List.length_pos.mpr h)
  unfold deterministicSplit
  rw [List.getD_eq_getElem _ _ hlt]
  exact List.getElem_mem hlt

/-- If a render's dependency tuple repeats the previous one, the effect body
does not run again: the runs over a constant tail are empty. -/
theorem effectRunsFrom_replicate (d : EffectDeps) (m : Nat) :
    effectRunsFrom d (List.replicate m d) = [] := by
  induction m with
  | zero => rfl
  | succ m ih => simp [List.replicate_succ, effectRunsFrom, ih]

/-- Over a mount whose renders all register the same dependency tuple, the
effect body runs exactly once, after the first render. -/
theorem effectRuns_replicate (d : EffectDeps) (n : Nat) (h : 1 ≤ n) :
    effectRuns (List.replicate n d) = [d] := by
  cases n with
  | zero => exact absurd h (by simp)
  | succ m =>
      simp [List.replicate_succ, effectRuns, effectRunsFrom_replicate]

/-! ## Claims -/

/-- Claim C1: the variant resolved by useAbTest is determined solely by the
pair (anonymous identifier, experiment name): two invocations under storage
states that agree on the anonymous id (for the same experiment) resolve the
same variant, regardless of any other state. -/
theorem useAbTest_deterministic (s t : Storage) (e : ExperimentName)
    (h : s anonIdKey = t anonIdKey) :
    (useAbTest e s).variant = (useAbTest e t).variant := by
  simp [useAbTest, useAnonId, useLocalStorage, h]

/-- Witness for C1 at concrete storages agreeing on the anonymous id. -/
theorem useAbTest_deterministic_check :
    (useAbTest .header storageA).variant = (useAbTest .header storageB).variant :=
  useAbTest_deterministic storageA storageB .header rfl

/-- Claim C2: for a stored anonymous identifier a, the variant returned by
useAbTest equals the deterministic-split function applied to the string
a ++ "_" ++ experiment name together with the experiment's variant list. -/
theorem useAbTest_variant_eq_split (s : Storage) (a : String) (e : ExperimentName)
    (h : s anonIdKey = some a) :
    (useAbTest e s).variant
      = deterministicSplit (a ++ "_" ++ e.str) (abExperiments e) := by
  simp [useAbTest, useAnonId, useLocalStorage, splitInput, jsInterp, h]

/-- Witness for C2 at a concrete storage holding the id "alice". -/
theorem useAbTest_variant_eq_split_check :
    (useAbTest .header storageA).variant
      = deterministicSplit ("alice" ++ "_" ++ ExperimentName.str .header)
          (abExperiments .header) :=
  useAbTest_variant_eq_split storageA "alice" .header rfl

/-- Claim C3: for every storage state the variant resolved by useAbTest is a
member of the requested experiment's fixed variant list, and those lists are
["kill-queues-headline", "event-driven-headerline"] for header and
["removed", "highlighted"] for footer. -/
theorem useAbTest_variant_mem (s : Storage) (e : ExperimentName) :
    (useAbTest e s).variant ∈ abExperiments e ∧
    abExperiments .header = ["kill-queues-headline", "event-driven-headerline"] ∧
    abExperiments .footer = ["removed", "highlighted"] := by
  refine ⟨?_, rfl, rfl⟩
  exact deterministicSplit_mem _ _ (by cases e <;> simp [abExperiments])

/-- Claim C4 counterexample: starting from an empty client storage, after
useAbTest runs the storage does not contain any anonymous identifier under
the key "inngest-anon-id" — the hook does not persist an identifier. -/
theorem useAbTest_no_persist_counterexample :
    ¬ ∃ v, (useAbTest .header emptyStorage).storage anonIdKey = some v := by
  rintro ⟨v, hv⟩
  simp [useAbTest, useAnonId, useLocalStorage, emptyStorage] at hv

/-- Claim C4 amended: the hook only reads the anonymous identifier from
client storage under the key "inngest-anon-id" and returns what is stored
there; it never writes, so the storage after the hooks run is exactly the
storage before. -/
theorem useAnonId_read_not_write (s : Storage) (e : ExperimentName) :
    (useAnonId s).1 = s anonIdKey ∧ (useAbTest e s).storage = s :=
  ⟨rfl, rfl⟩

/-- Claim C5: per mount of a component using useAbTest, with storage state
and experiment fixed across its renders, exactly one analytics event is
emitted, and it carries the resolved variant. -/
theorem useAbTest_single_event (e : ExperimentName) (s : Storage) (n : Nat)
    (h : 1 ≤ n) :
    mountEvents e s n = [depsEvent (abTestDeps e s)] ∧
    (depsEvent (abTestDeps e s)).variant = (useAbTest e s).variant := by
  refine ⟨?_, rfl⟩
  simp [mountEvents, effectRuns_replicate _ n h]

/-- Witness for C5: a mount with one render emits exactly one event. -/
theorem useAbTest_single_event_check :
    mountEvents .header emptyStorage 1 = [depsEvent (abTestDeps .header emptyStorage)] ∧
    (depsEvent (abTestDeps .header emptyStorage)).variant
      = (useAbTest .header emptyStorage).variant :=
  useAbTest_single_event .header emptyStorage 1 (by decide)

/-- Claim C6: when no identifier is stored under "inngest-anon-id", useAnonId
yields no identifier, useAbTest still resolves a variant by hashing the
string "undefined_" ++ experiment name, and every visitor without a stored
identifier is assigned the same variant for a given experiment. -/
theorem useAbTest_undefined_anon (s t : Storage) (e : ExperimentName)
    (hs : s anonIdKey = none) (ht : t anonIdKey = none) :
    (useAnonId s).1 = none ∧
    (useAbTest e s).variant
      = deterministicSplit ("undefined_" ++ e.str) (abExperiments e) ∧
    (useAbTest e s).variant = (useAbTest e t).variant := by
  refine ⟨by simp [useAnonId, useLocalStorage, hs], ?_, ?_⟩
  · have harg : splitInput none e = "undefined_" ++ e.str := by
      cases e <;> rfl
    simp [useAbTest, useAnonId, useLocalStorage, hs, harg]
  · simp [useAbTest, useAnonId, useLocalStorage, hs, ht]

/-- Witness for C6 at two concrete storages lacking the anonymous id. -/
theorem useAbTest_undefined_anon_check :
    (useAnonId emptyStorage).1 = none ∧
    (useAbTest .footer emptyStorage).variant
      = deterministicSplit ("undefined_" ++ ExperimentName.str .footer)
          (abExperiments .footer) ∧
    (useAbTest .footer emptyStorage).variant = (useAbTest .footer storageC).variant :=
  useAbTest_undefined_anon emptyStorage storageC .footer rfl rfl

/-- Claim C7: the analytics event emitted on mount is consistent with the
hook's result: its name is "app/experiment.viewed", its variant is the
variant useAbTest returns, its experiment is the requested experiment name,
and its anonymous id is the identifier read by useAnonId. -/
theorem useAbTest_event_consistent (s : Storage) (e : ExperimentName) :
    (useAbTest e s).event.name = "app/experiment.viewed" ∧
    (useAbTest e s).event.variant = (useAbTest e s).variant ∧
    (useAbTest e s).event.experiment = e ∧
    (useAbTest e s).event.anonymous_id = (useAnonId s).1 :=
  ⟨rfl, rfl, rfl, rfl⟩

/-- Claim C8: useAbTest and useAnonId never write to client storage: every
key's stored value (or absence of one) is unchanged after the hooks run. -/
theorem useAbTest_storage_frame (s : Storage) (e : ExperimentName) (key : String) :
    (useAnonId s).2 key = s key ∧ (useAbTest e s).storage key = s key :=
  ⟨rfl, rfl⟩

end AbTest
